import Mathlib

/-!
Verification of the dziquist-backend order-submission service.

The repository contains two deployment variants of the same Express app:
`server.js` (admin notification only) and a second, unnamed variant
(admin + customer notification, strict CORS).  Both share the same
`validateInput` function and the same validate → sanitize → persist →
notify workflow.  This file embeds the pure logic of both variants and
proves the specified properties about them.

Conventions of the embedding:
  * JavaScript strings are Lean `String`s; request-body fields that may
    be absent are `Option String` (`none` = the JSON field is missing).
  * The JavaScript truthiness test `!field` on a string field is
    `truthy` below: `none` and the empty string are falsy.
  * Regular expressions are translated to executable predicates over
    `String.data` (lists of `Char`), including the JavaScript `\s`
    whitespace class.
  * The asynchronous collaborators (sqlite insert, the two
    `transporter.sendMail` calls) are modelled by a `Collaborators`
    record of boolean outcomes; the handler becomes a pure function
    from the collaborator outcomes, the current store contents and the
    request body to an `Outcome` (response sent, new store contents,
    number of admin / customer send attempts).
-/

/-- Characters matched by the JavaScript regex class `\s`
(whitespace as used in the `^[a-zA-Z\s]+$` name rule, the `[^\s@]`
email classes and the `[-()\s]` phone stripper). -/
def jsWhitespace (c : Char) : Bool :=
  c.toNat = 0x20 || c.toNat = 0x9 || c.toNat = 0xa || c.toNat = 0xb ||
  c.toNat = 0xc || c.toNat = 0xd || c.toNat = 0xa0 || c.toNat = 0x1680 ||
  (0x2000 ≤ c.toNat && c.toNat ≤ 0x200a) || c.toNat = 0x2028 ||
  c.toNat = 0x2029 || c.toNat = 0x202f || c.toNat = 0x205f ||
  c.toNat = 0x3000 || c.toNat = 0xfeff

/-- Characters matched by the JavaScript regex class `[a-zA-Z]`. -/
def isAsciiLetter (c : Char) : Bool :=
  (0x41 ≤ c.toNat && c.toNat ≤ 0x5a) || (0x61 ≤ c.toNat && c.toNat ≤ 0x7a)

/-- Characters matched by the JavaScript regex class `\d`, i.e. `[0-9]`. -/
def isAsciiDigit (c : Char) : Bool :=
  0x30 ≤ c.toNat && c.toNat ≤ 0x39

/-- ASCII punctuation characters (the four ASCII ranges between the
digit, upper-case and lower-case letter blocks). -/
def isPunctuation (c : Char) : Bool :=
  (0x21 ≤ c.toNat && c.toNat ≤ 0x2f) || (0x3a ≤ c.toNat && c.toNat ≤ 0x40) ||
  (0x5b ≤ c.toNat && c.toNat ≤ 0x60) || (0x7b ≤ c.toNat && c.toNat ≤ 0x7e)

/-- The JavaScript test `/^[a-zA-Z\s]+$/.test(name)`: non-empty and
every character a letter or whitespace. -/
def nameOk (s : String) : Bool :=
  !s.data.isEmpty && s.data.all (fun c => isAsciiLetter c || jsWhitespace c)

/-- The JavaScript test `/^[^\s@]+@[^\s@]+\.[^\s@]+$/.test(email)`:
the string splits as `local@domain` with exactly one `@`, no whitespace
anywhere, a non-empty local part, and the domain containing a `.` that
has at least one character before it and after it. -/
def emailOk (s : String) : Bool :=
  let cs := s.data
  let locPart := cs.takeWhile (fun c => c ≠ '@')
  match cs.dropWhile (fun c => c ≠ '@') with
  | '@' :: domain =>
    !locPart.isEmpty &&
    locPart.all (fun c => !jsWhitespace c) &&
    domain.all (fun c => !(jsWhitespace c || c = '@')) &&
    (domain.drop 1).dropLast.contains '.'
  | _ => false

/-- The JavaScript `phone.replace(/[-()\s]/g, '')`: remove every
hyphen, parenthesis and whitespace character. -/
def stripPhone (cs : List Char) : List Char :=
  cs.filter (fun c => !(c = '-' || c = '(' || c = ')' || jsWhitespace c))

/-- Consume the optional leading `+` of the regex `^\+?\d{10,15}$`. -/
def phoneDigits (cs : List Char) : List Char :=
  match cs with
  | [] => []
  | c :: rest => if c = '+' then rest else c :: rest

/-- The JavaScript test `/^\+?\d{10,15}$/.test(phone.replace(/[-()\s]/g, ''))`. -/
def phoneOk (s : String) : Bool :=
  let ds := phoneDigits (stripPhone s.data)
  ds.all isAsciiDigit && decide (10 ≤ ds.length) && decide (ds.length ≤ 15)

/-- A request-body field: `none` when the JSON key is absent. -/
abbrev FormField := Option String

/-- JavaScript truthiness of a string field: absent and empty are falsy. -/
def truthy : FormField → Bool
  | none => false
  | some s => !s.data.isEmpty

/-- The string value of a field, as used once validation has passed. -/
def getStr : FormField → String
  | none => ""
  | some s => s

/-- The JSON body of a `POST /api/orders` request, with the five fields
destructured by the handler. -/
structure OrderData where
  name : FormField
  email : FormField
  phone : FormField
  service : FormField
  details : FormField
deriving DecidableEq

/-- Result of `validateInput`: `{isValid:false, error}` or `{isValid:true}`. -/
inductive ValidationResult where
  | invalid (error : String)
  | valid
deriving DecidableEq

/-- Embedding of `validateInput` (identical in both variants):
presence, then name format, then email format, then phone format,
returning the first failing rule's message. -/
def validateInput (d : OrderData) : ValidationResult :=
  if !truthy d.name || !truthy d.email || !truthy d.phone ||
      !truthy d.service || !truthy d.details then
    .invalid "All fields are required."
  else if !nameOk (getStr d.name) then
    .invalid "Name must contain only letters and spaces."
  else if !emailOk (getStr d.email) then
    .invalid "Invalid email format."
  else if !phoneOk (getStr d.phone) then
    .invalid "Invalid phone number."
  else
    .valid

/-- Modelled from the spec: the `sanitize-html` npm library is an
external dependency whose code is not part of this repository; the spec
describes sanitization as a transform that "strips/escapes markup so no
field can carry executable markup" and "never fails; worst case it
yields an empty or stripped string".  We model it as a markup-tag
stripper over the character list: every segment from a `<` up to the
next `>` (or to the end of the string when unclosed) is removed.  The
boolean argument records whether the scanner is currently inside a tag. -/
def sanitizeChars : Bool → List Char → List Char
  | _, [] => []
  | true, c :: rest =>
    if c = '>' then sanitizeChars false rest else sanitizeChars true rest
  | false, c :: rest =>
    if c = '<' then sanitizeChars true rest else c :: sanitizeChars false rest

/-- Modelled from the spec: the HTML-sanitizing transform applied to
each submitted field (see `sanitizeChars`). -/
def sanitizeHtml (s : String) : String :=
  ⟨sanitizeChars false s.data⟩

/-- The JSON payload of a response: `{error: …}` or `{message: …}`. -/
inductive Payload where
  | error (text : String)
  | message (text : String)
deriving DecidableEq

/-- An HTTP response as produced by `res.status(n).json(...)`. -/
structure Response where
  status : Nat
  payload : Payload
deriving DecidableEq

/-- A row of the `orders` table as inserted by the handler (the
store-generated `id` and `created_at` are owned by the collaborator). -/
structure OrderRow where
  name : String
  email : String
  phone : String
  service : String
  details : String
deriving DecidableEq

/-- Outcomes of the asynchronous collaborators for one request:
whether the sqlite insert succeeds, and whether each
`transporter.sendMail` call reports success. -/
structure Collaborators where
  insertOk : Bool
  adminSendOk : Bool
  customerSendOk : Bool
deriving DecidableEq

/-- Everything observable about one handled request: the response sent,
the resulting store contents, and how many admin / customer email send
attempts were made. -/
structure Outcome where
  response : Response
  store : List OrderRow
  adminAttempts : Nat
  customerAttempts : Nat
deriving DecidableEq

/-- The row built from the five `sanitizeHtml` outputs of a request body. -/
def sanitizedRow (d : OrderData) : OrderRow :=
  ⟨sanitizeHtml (getStr d.name), sanitizeHtml (getStr d.email),
   sanitizeHtml (getStr d.phone), sanitizeHtml (getStr d.service),
   sanitizeHtml (getStr d.details)⟩

/-- Embedding of the `app.post('/api/orders')` handler of `server.js`
(the variant without customer notification): validate, sanitize,
insert, then send the admin email, whose failure degrades the response
message to "Order saved, but failed to send email." while keeping
status 200. -/
def handleOrderSimple (env : Collaborators) (store : List OrderRow)
    (body : OrderData) : Outcome :=
  match validateInput body with
  | .invalid e => ⟨⟨400, .error e⟩, store, 0, 0⟩
  | .valid =>
    let sanitizedName := sanitizeHtml (getStr body.name)
    let sanitizedEmail := sanitizeHtml (getStr body.email)
    let sanitizedPhone := sanitizeHtml (getStr body.phone)
    let sanitizedService := sanitizeHtml (getStr body.service)
    let sanitizedDetails := sanitizeHtml (getStr body.details)
    if env.insertOk then
      let store2 := store ++
        [⟨sanitizedName, sanitizedEmail, sanitizedPhone, sanitizedService,
          sanitizedDetails⟩]
      if env.adminSendOk then
        ⟨⟨200, .message "Order submitted successfully!"⟩, store2, 1, 0⟩
      else
        ⟨⟨200, .message "Order saved, but failed to send email."⟩, store2, 1, 0⟩
    else
      ⟨⟨500, .error "Failed to save order."⟩, store, 0, 0⟩

/-- Embedding of the `app.post('/api/orders')` handler of the unnamed
variant (with customer notification): validate, sanitize, insert, then
send the admin email (its outcome is only logged) and the customer
email, whose failure degrades the response message while keeping
status 200. -/
def handleOrderFull (env : Collaborators) (store : List OrderRow)
    (body : OrderData) : Outcome :=
  match validateInput body with
  | .invalid e => ⟨⟨400, .error e⟩, store, 0, 0⟩
  | .valid =>
    let sanitizedName := sanitizeHtml (getStr body.name)
    let sanitizedEmail := sanitizeHtml (getStr body.email)
    let sanitizedPhone := sanitizeHtml (getStr body.phone)
    let sanitizedService := sanitizeHtml (getStr body.service)
    let sanitizedDetails := sanitizeHtml (getStr body.details)
    if env.insertOk then
      let store2 := store ++
        [⟨sanitizedName, sanitizedEmail, sanitizedPhone, sanitizedService,
          sanitizedDetails⟩]
      if env.customerSendOk then
        ⟨⟨200, .message "Order submitted successfully!"⟩, store2, 1, 1⟩
      else
        ⟨⟨200, .message "Order saved, but failed to send customer confirmation."⟩,
         store2, 1, 1⟩
    else
      ⟨⟨500, .error "Failed to save order."⟩, store, 0, 0⟩

/-- Conjunction of the five truthiness checks of the presence rule. -/
def presenceOk (d : OrderData) : Bool :=
  truthy d.name && truthy d.email && truthy d.phone &&
  truthy d.service && truthy d.details

/-- The validation rules in source order, each paired with its message. -/
def ruleTable (d : OrderData) : List (Bool × String) :=
  [(presenceOk d, "All fields are required."),
   (nameOk (getStr d.name), "Name must contain only letters and spaces."),
   (emailOk (getStr d.email), "Invalid email format."),
   (phoneOk (getStr d.phone), "Invalid phone number.")]

/-- First-failure semantics: the message of the first rule whose check
is false, `none` when every rule passes. -/
def firstFailure : List (Bool × String) → Option String
  | [] => none
  | (ok, msg) :: rest => if ok then firstFailure rest else some msg

/-- Declarative reading of the phone rule from the spec: after the
strip, the remainder is an optional leading `+` followed by 10 to 15
digits. -/
def phoneShapeSpec (s : String) : Prop :=
  ∃ ds : List Char,
    (stripPhone s.data = '+' :: ds ∨ stripPhone s.data = ds) ∧
    (∀ c ∈ ds, isAsciiDigit c = true) ∧ 10 ≤ ds.length ∧ ds.length ≤ 15

theorem sanitizeChars_no_lt (cs : List Char) :
    ∀ b : Bool, '<' ∉ sanitizeChars b cs := by
  induction cs with
  | nil => intro b; cases b <;> simp [sanitizeChars]
  | cons c rest ih =>
    intro b
    cases b with
    | true =>
      simp only [sanitizeChars]
      split
      · exact ih false
      · exact ih true
    | false =>
      simp only [sanitizeChars]
      split
      · exact ih true
      · intro hmem
        rcases List.mem_cons.mp hmem with h1 | h2
        · rename_i hc
          exact hc h1.symm
        · exact ih false h2

theorem sanitizeChars_of_no_lt (cs : List Char) (h : '<' ∉ cs) :
    sanitizeChars false cs = cs := by
  induction cs with
  | nil => simp [sanitizeChars]
  | cons c rest ih =>
    have hc : ¬ c = '<' := fun e => h (e ▸ List.mem_cons_self c rest)
    have hr : '<' ∉ rest := fun m => h (List.mem_cons_of_mem c m)
    simp only [sanitizeChars, if_neg hc]
    rw [ih hr]

/-- C9: the sanitization transform applied to each field is idempotent:
for every string x, sanitize(sanitize(x)) equals sanitize(x), so on its
own output (already-clean text) sanitize acts as the identity. -/
theorem C9_sanitizeHtml_idempotent (s : String) :
    sanitizeHtml (sanitizeHtml s) = sanitizeHtml s := by
  unfold sanitizeHtml
  exact congrArg String.mk (sanitizeChars_of_no_lt _ (sanitizeChars_no_lt _ false))

/-- C3: validateInput checks the four rules in the fixed order presence,
name format, email format, phone format, short-circuits on the first
failure, and returns exactly the first violated rule's message
('All fields are required.', 'Name must contain only letters and
spaces.', 'Invalid email format.', 'Invalid phone number.'). -/
theorem C3_validateInput_first_failure (d : OrderData) :
    validateInput d =
      (match firstFailure (ruleTable d) with
       | some e => ValidationResult.invalid e
       | none => ValidationResult.valid) := by
  have hp : (!truthy d.name || !truthy d.email || !truthy d.phone ||
      !truthy d.service || !truthy d.details) = !presenceOk d := by
    simp [presenceOk]
  simp only [validateInput, ruleTable, firstFailure, hp]
  cases presenceOk d <;>
    cases nameOk (getStr d.name) <;>
    cases emailOk (getStr d.email) <;>
    cases phoneOk (getStr d.phone) <;> rfl

/-- C2: in both variants, a row is appended to the orders store only if
validateInput returned Valid for the request body, and the appended row
holds exactly the sanitizeHtml outputs of the submitted fields. -/
theorem C2_insert_only_validated_and_sanitized (env : Collaborators)
    (store : List OrderRow) (body : OrderData) :
    ((handleOrderSimple env store body).store = store ∨
      (validateInput body = .valid ∧
        (handleOrderSimple env store body).store = store ++ [sanitizedRow body])) ∧
    ((handleOrderFull env store body).store = store ∨
      (validateInput body = .valid ∧
        (handleOrderFull env store body).store = store ++ [sanitizedRow body])) := by
  unfold handleOrderSimple handleOrderFull
  cases hv : validateInput body with
  | invalid e => simp
  | valid =>
    cases hins : env.insertOk with
    | false => simp
    | true =>
      cases env.adminSendOk <;> cases env.customerSendOk <;>
        simp [sanitizedRow]

/-- A request body that passes every validation rule (the end-to-end
example of the spec). -/
def goodBody : OrderData :=
  ⟨some "Jane Doe", some "jane@example.com", some "555-123-4567",
   some "Moving", some "three boxes"⟩

/-- A request body whose email fails the email-format rule. -/
def badEmailBody : OrderData :=
  ⟨some "Jane Doe", some "not-an-email", some "5551234567",
   some "Moving", some "boxes"⟩

/-- C4: in both variants, when validateInput returns Invalid(reason)
the handler responds 400 with that reason, leaves the store unchanged
and attempts no email send. -/
theorem C4_validation_failure_terminal (env : Collaborators)
    (store : List OrderRow) (body : OrderData) (e : String)
    (hv : validateInput body = .invalid e) :
    handleOrderSimple env store body = ⟨⟨400, .error e⟩, store, 0, 0⟩ ∧
    handleOrderFull env store body = ⟨⟨400, .error e⟩, store, 0, 0⟩ := by
  constructor <;> simp [handleOrderSimple, handleOrderFull, hv]

/-- Witness for C4: the body with email "not-an-email" is rejected with
the email-format reason, no store change and no send attempts. -/
theorem C4_witness :
    handleOrderSimple ⟨true, true, true⟩ [] badEmailBody =
      ⟨⟨400, .error "Invalid email format."⟩, [], 0, 0⟩ ∧
    handleOrderFull ⟨true, true, true⟩ [] badEmailBody =
      ⟨⟨400, .error "Invalid email format."⟩, [], 0, 0⟩ :=
  C4_validation_failure_terminal ⟨true, true, true⟩ [] badEmailBody
    "Invalid email format." (by decide)

/-- C5: in both variants, when the store reports an insert failure the
handler responds 500 with exactly 'Failed to save order.' and attempts
no notification send; and this is the only fatal collaborator failure:
once the insert succeeds, the response status is 200 whatever the email
sends report. -/
theorem C5_insert_failure_fatal_and_only_fatal (env : Collaborators)
    (store : List OrderRow) (body : OrderData)
    (hv : validateInput body = .valid) :
    (env.insertOk = false →
      handleOrderSimple env store body =
        ⟨⟨500, .error "Failed to save order."⟩, store, 0, 0⟩ ∧
      handleOrderFull env store body =
        ⟨⟨500, .error "Failed to save order."⟩, store, 0, 0⟩) ∧
    (env.insertOk = true →
      (handleOrderSimple env store body).response.status = 200 ∧
      (handleOrderFull env store body).response.status = 200) := by
  unfold handleOrderSimple handleOrderFull
  rw [hv]
  cases env.insertOk <;> cases env.adminSendOk <;> cases env.customerSendOk <;>
    simp

/-- Witness for C5: with a failing insert, a valid body gets the generic
500 response and no send attempt in both variants. -/
theorem C5_witness :
    handleOrderSimple ⟨false, true, true⟩ [] goodBody =
      ⟨⟨500, .error "Failed to save order."⟩, [], 0, 0⟩ ∧
    handleOrderFull ⟨false, true, true⟩ [] goodBody =
      ⟨⟨500, .error "Failed to save order."⟩, [], 0, 0⟩ :=
  (C5_insert_failure_fatal_and_only_fatal ⟨false, true, true⟩ [] goodBody
    (by decide)).1 rfl

/-- C6: in the customer-notification variant, when persistence succeeds
and the customer send fails, the handler responds 200 with exactly
'Order saved, but failed to send customer confirmation.', and the
sanitized row remains appended to the store (no rollback). -/
theorem C6_customer_send_failure_degraded (env : Collaborators)
    (store : List OrderRow) (body : OrderData)
    (hv : validateInput body = .valid) (hins : env.insertOk = true)
    (hcf : env.customerSendOk = false) :
    handleOrderFull env store body =
      ⟨⟨200, .message "Order saved, but failed to send customer confirmation."⟩,
       store ++ [sanitizedRow body], 1, 1⟩ := by
  unfold handleOrderFull
  rw [hv]
  simp [hins, hcf, sanitizedRow]

/-- Witness for C6: the valid example body with a failing customer send
yields the degraded 200 response and the stored row survives. -/
theorem C6_witness :
    handleOrderFull ⟨true, true, false⟩ [] goodBody =
      ⟨⟨200, .message "Order saved, but failed to send customer confirmation."⟩,
       [] ++ [sanitizedRow goodBody], 1, 1⟩ :=
  C6_customer_send_failure_degraded ⟨true, true, false⟩ [] goodBody
    (by decide) rfl rfl

theorem phoneOk_iff_aux (t : List Char) :
    ((phoneDigits t).all isAsciiDigit && decide (10 ≤ (phoneDigits t).length) &&
      decide ((phoneDigits t).length ≤ 15)) = true ↔
    (∃ ds : List Char, (t = '+' :: ds ∨ t = ds) ∧
      (∀ c ∈ ds, isAsciiDigit c = true) ∧ 10 ≤ ds.length ∧ ds.length ≤ 15) := by
  cases t with
  | nil =>
    simp only [phoneDigits]
    constructor
    · intro h
      simp at h
    · rintro ⟨ds, h1 | h1, _, hlen, _⟩
      · exact absurd h1 (by simp)
      · rw [← h1] at hlen
        simp at hlen
  | cons c rest =>
    by_cases hc : c = '+'
    · subst hc
      simp only [phoneDigits, if_pos rfl]
      constructor
      · intro h
        simp only [Bool.and_eq_true, List.all_eq_true, decide_eq_true_eq] at h
        exact ⟨rest, Or.inl rfl, h.1.1, h.1.2, h.2⟩
      · rintro ⟨ds, h1 | h1, hdig, hl, hr⟩
        · injection h1 with _ h1
          subst h1
          simp only [Bool.and_eq_true, List.all_eq_true, decide_eq_true_eq]
          exact ⟨⟨hdig, hl⟩, hr⟩
        · exact absurd (hdig '+' (h1 ▸ List.mem_cons_self _ _)) (by decide)
    · simp only [phoneDigits, if_neg hc]
      constructor
      · intro h
        simp only [Bool.and_eq_true, List.all_eq_true, decide_eq_true_eq] at h
        exact ⟨c :: rest, Or.inr rfl, h.1.1, h.1.2, h.2⟩
      · rintro ⟨ds, h1 | h1, hdig, hl, hr⟩
        · injection h1 with h1 _
          exact absurd h1 hc
        · rw [h1]
          simp only [Bool.and_eq_true, List.all_eq_true, decide_eq_true_eq]
          exact ⟨⟨hdig, hl⟩, hr⟩

/-- C7: the phone rule accepts exactly the strings whose stripped form
(hyphens, parentheses and whitespace removed) is an optional leading
`+` followed by 10 to 15 digits — in particular '(555) 123-4567' — and
when the three earlier rules pass and the phone rule fails,
validateInput reports 'Invalid phone number.'. -/
theorem C7_phone_rule (s : String) :
    (phoneOk s = true ↔ phoneShapeSpec s) ∧
    phoneOk "(555) 123-4567" = true ∧
    (∀ d : OrderData, presenceOk d = true →
      nameOk (getStr d.name) = true → emailOk (getStr d.email) = true →
      phoneOk (getStr d.phone) = false →
      validateInput d = .invalid "Invalid phone number.") := by
  refine ⟨?_, by decide, ?_⟩
  · simp only [phoneOk, phoneShapeSpec]
    exact phoneOk_iff_aux (stripPhone s.data)
  · intro d hp hn he hph
    simp only [presenceOk, Bool.and_eq_true] at hp
    obtain ⟨⟨⟨⟨h1, h2⟩, h3⟩, h4⟩, h5⟩ := hp
    simp [validateInput, h1, h2, h3, h4, h5, hn, he, hph]

/-- A request body whose phone has too few digits after stripping. -/
def badPhoneBody : OrderData :=
  ⟨some "Jane Doe", some "jane@example.com", some "12345",
   some "Moving", some "boxes"⟩

/-- Witness for C7: a five-digit phone fails the phone rule and
validateInput reports exactly the phone message for it. -/
theorem C7_witness :
    validateInput badPhoneBody = .invalid "Invalid phone number." :=
  (C7_phone_rule "(555) 123-4567").2.2 badPhoneBody (by decide) (by decide)
    (by decide) (by decide)

theorem digit_punct_not_name_char (c : Char)
    (h : (isAsciiDigit c || isPunctuation c) = true) :
    (isAsciiLetter c || jsWhitespace c) = false := by
  simp only [isAsciiDigit, isPunctuation, isAsciiLetter, jsWhitespace,
    Bool.or_eq_true, Bool.and_eq_true, decide_eq_true_eq] at h
  simp only [isAsciiLetter, jsWhitespace, Bool.or_eq_false_iff,
    Bool.and_eq_false_iff, decide_eq_false_iff_not, decide_eq_true_eq]
  omega

/-- C8: any name containing a digit or an ASCII punctuation character is
rejected by validateInput with exactly the name-format message, as soon
as the presence rule passes (whatever the other fields contain). -/
theorem C8_name_with_digit_or_punctuation (d : OrderData) (c : Char)
    (hp : presenceOk d = true)
    (hmem : c ∈ (getStr d.name).data)
    (hcls : (isAsciiDigit c || isPunctuation c) = true) :
    validateInput d = .invalid "Name must contain only letters and spaces." := by
  have hn : nameOk (getStr d.name) = false := by
    cases hall : (getStr d.name).data.all (fun c => isAsciiLetter c || jsWhitespace c) with
    | false => simp [nameOk, hall]
    | true =>
      exfalso
      rw [List.all_eq_true] at hall
      have hgood := hall c hmem
      rw [digit_punct_not_name_char c hcls] at hgood
      exact Bool.false_ne_true hgood
  simp only [presenceOk, Bool.and_eq_true] at hp
  obtain ⟨⟨⟨⟨h1, h2⟩, h3⟩, h4⟩, h5⟩ := hp
  simp [validateInput, h1, h2, h3, h4, h5, hn]

/-- A request body whose name contains the digit '4' but whose other
fields all satisfy their rules. -/
def nameDigitBody : OrderData :=
  ⟨some "J4ne", some "jane@example.com", some "5551234567",
   some "Moving", some "boxes"⟩

/-- Witness for C8: a name containing the digit '4' is rejected with
the name-format message even though every other field is valid. -/
theorem C8_witness :
    validateInput nameDigitBody =
      .invalid "Name must contain only letters and spaces." :=
  C8_name_with_digit_or_punctuation nameDigitBody '4' (by decide) (by decide)
    (by decide)

/-- C10: the presence rule only rejects missing or empty fields, so a
submission whose name, service and details are non-empty whitespace-only
strings (the whitespace-only name also passes the name-format rule) and
whose email and phone pass their rules is validated and persisted by
both variants. -/
theorem C10_whitespace_only_fields_accepted (env : Collaborators)
    (store : List OrderRow) (d : OrderData) (nm sv dt : String)
    (hnm : d.name = some nm) (hnm1 : nm.data ≠ [])
    (hnm2 : nm.data.all jsWhitespace = true)
    (hsv : d.service = some sv) (hsv1 : sv.data ≠ [])
    (hsv2 : sv.data.all jsWhitespace = true)
    (hdt : d.details = some dt) (hdt1 : dt.data ≠ [])
    (hdt2 : dt.data.all jsWhitespace = true)
    (hem : ∃ e, d.email = some e ∧ emailOk e = true)
    (hph : ∃ p, d.phone = some p ∧ phoneOk p = true)
    (hins : env.insertOk = true) :
    validateInput d = .valid ∧
    (handleOrderSimple env store d).store = store ++ [sanitizedRow d] ∧
    (handleOrderFull env store d).store = store ++ [sanitizedRow d] := by
  obtain ⟨e, he, heok⟩ := hem
  obtain ⟨p, hp, hpok⟩ := hph
  have ht1 : truthy d.name = true := by rw [hnm]; simp [truthy, hnm1]
  have ht2 : truthy d.email = true := by
    rw [he]
    cases hd : e.data with
    | nil =>
      exfalso
      simp [emailOk, hd] at heok
    | cons a l => simp [truthy, hd]
  have ht3 : truthy d.phone = true := by
    rw [hp]
    cases hd : p.data with
    | nil =>
      exfalso
      simp [phoneOk, stripPhone, phoneDigits, hd] at hpok
    | cons a l => simp [truthy, hd]
  have ht4 : truthy d.service = true := by rw [hsv]; simp [truthy, hsv1]
  have ht5 : truthy d.details = true := by rw [hdt]; simp [truthy, hdt1]
  have hnok : nameOk (getStr d.name) = true := by
    rw [hnm]
    simp only [getStr, nameOk, Bool.and_eq_true, Bool.not_eq_true']
    refine ⟨by simp [hnm1], ?_⟩
    rw [List.all_eq_true] at hnm2 ⊢
    intro c hc
    simp [hnm2 c hc]
  have heok2 : emailOk (getStr d.email) = true := by rw [he]; exact heok
  have hpok2 : phoneOk (getStr d.phone) = true := by rw [hp]; exact hpok
  have hv : validateInput d = .valid := by
    simp [validateInput, ht1, ht2, ht3, ht4, ht5, hnok, heok2, hpok2]
  refine ⟨hv, ?_, ?_⟩
  · unfold handleOrderSimple
    rw [hv]
    cases env.adminSendOk <;> simp [hins, sanitizedRow]
  · unfold handleOrderFull
    rw [hv]
    cases env.customerSendOk <;> simp [hins, sanitizedRow]

/-- A request body whose name, service and details are whitespace-only
non-empty strings. -/
def wsBody : OrderData :=
  ⟨some " ", some "a@b.c", some "1234567890", some " ", some "\t"⟩

/-- Witness for C10: the whitespace-only body is validated and
persisted by both variants. -/
theorem C10_witness :
    validateInput wsBody = .valid ∧
    (handleOrderSimple ⟨true, true, true⟩ [] wsBody).store =
      [] ++ [sanitizedRow wsBody] ∧
    (handleOrderFull ⟨true, true, true⟩ [] wsBody).store =
      [] ++ [sanitizedRow wsBody] :=
  C10_whitespace_only_fields_accepted ⟨true, true, true⟩ [] wsBody " " " " "\t"
    rfl (by decide) (by decide) rfl (by decide) (by decide) rfl (by decide)
    (by decide) ⟨"a@b.c", rfl, by decide⟩ ⟨"1234567890", rfl, by decide⟩ rfl

/-- Counterexample to C1: in the `server.js` variant, for the valid
example body with a successful insert, the response depends on the
admin send outcome — success yields 'Order submitted successfully!'
while failure yields 'Order saved, but failed to send email.'. -/
theorem C1_counterexample :
    (handleOrderSimple ⟨true, true, true⟩ [] goodBody).response ≠
      (handleOrderSimple ⟨true, false, true⟩ [] goodBody).response := by
  decide

/-- C1 (amended): in the customer-notification variant the admin send
outcome never changes the response; in the `server.js` variant it never
changes the response status (always 200 once the insert succeeds) but
it does select the message: 'Order submitted successfully!' on success
and 'Order saved, but failed to send email.' on failure. -/
theorem C1_amended_admin_outcome_independence (env env' : Collaborators)
    (store : List OrderRow) (body : OrderData)
    (hv : validateInput body = .valid)
    (h1 : env.insertOk = true) (h2 : env'.insertOk = true)
    (hc : env.customerSendOk = env'.customerSendOk) :
    (handleOrderFull env store body).response =
      (handleOrderFull env' store body).response ∧
    (handleOrderSimple env store body).response.status = 200 ∧
    (handleOrderSimple env' store body).response.status = 200 ∧
    (env.adminSendOk = false →
      (handleOrderSimple env store body).response =
        ⟨200, .message "Order saved, but failed to send email."⟩) ∧
    (env.adminSendOk = true →
      (handleOrderSimple env store body).response =
        ⟨200, .message "Order submitted successfully!"⟩) := by
  obtain ⟨i, a, cu⟩ := env
  obtain ⟨i', a', cu'⟩ := env'
  cases i <;> cases i' <;> cases a <;> cases a' <;> cases cu <;> cases cu' <;>
    simp_all [handleOrderSimple, handleOrderFull, hv]

/-- Witness for C1 (amended): with the valid example body, a failing
admin send and a succeeding one give identical responses in the
customer-notification variant. -/
theorem C1_witness :
    (handleOrderFull ⟨true, false, true⟩ [] goodBody).response =
      (handleOrderFull ⟨true, true, true⟩ [] goodBody).response :=
  (C1_amended_admin_outcome_independence ⟨true, false, true⟩ ⟨true, true, true⟩
    [] goodBody (by decide) rfl rfl rfl).1
